import Mathlib

/-!
Shallow embedding of `telltemp.py` (a Tellstick temperature/humidity CLI)
and proofs about its components: the `Heartbeat` terminal animator, the
`CSVLogger` sink, the `SensorEventHandler` dispatch, the `list_sensors`
one-shot table, and the `__main__` logger selection.

Console and file effects are modelled by returning the list of emitted
items; mutable objects are modelled by explicit state passing.
-/

/-- Datatype code for temperature readings (tellcore constant, value 1;
also `SensorData.DATATYPE_MAP` in the source). -/
def TELLSTICK_TEMPERATURE : Nat := 1

/-- Datatype code for humidity readings (tellcore constant, value 2). -/
def TELLSTICK_HUMIDITY : Nat := 2

/-- Container for one sensor reading, mirroring the fields of
`SensorData.__init__` (and of every sensor-event callback). -/
structure SensorData where
  protocol : String
  model : String
  id_ : Int
  datatype : Nat
  value : String
  timestamp : Int
  cid : Int
deriving DecidableEq, Repr

/-- One item emitted to the console: a backspace control character, a
heartbeat glyph, the printed line of one reading, or the verbose
ignoring notice. -/
inductive Out
  | backspace
  | glyph (c : Char)
  | sensorLine (data : SensorData)
  | ignoring (id_ : Int)
deriving DecidableEq, Repr

/-- True exactly on the backspace control character. -/
def Out.isBackspace : Out → Bool
  | .backspace => true
  | _ => false

/-- True exactly on heartbeat glyph emissions. -/
def Out.isGlyph : Out → Bool
  | .glyph _ => true
  | _ => false

/-- The glyphs of an output stream, in order. -/
def glyphsOf (l : List Out) : List Char :=
  l.filterMap fun o => match o with | .glyph c => some c | _ => none

/-- State of the `Heartbeat` animator: `current_char` is the index into
`HEARTBEAT_CHARS`; `flush_output` records whether a previously printed
glyph is pending erasure. -/
structure Heartbeat where
  current_char : Nat
  flush_output : Bool
deriving DecidableEq, Repr

/-- The four heartbeat glyphs, in cycle order (`Heartbeat.HEARTBEAT_CHARS`). -/
def HEARTBEAT_CHARS : List Char := ['-', '\\', '|', '/']

/-- `Heartbeat.__init__`: index 0, nothing printed yet. -/
def Heartbeat.init : Heartbeat := ⟨0, false⟩

/-- `Heartbeat.erase`: if `flush_output` is set, emit a backspace and keep
the state; otherwise just set the flag and emit nothing. -/
def Heartbeat.erase (h : Heartbeat) : Heartbeat × List Out :=
  if h.flush_output then (h, [Out.backspace])
  else ({ h with flush_output := true }, [])

/-- `Heartbeat.__get_next_char`: return the current glyph and advance the
index modulo the number of glyphs. -/
def Heartbeat.get_next_char (h : Heartbeat) : Heartbeat × Char :=
  (⟨(h.current_char + 1) % HEARTBEAT_CHARS.length, h.flush_output⟩,
   HEARTBEAT_CHARS.getD h.current_char ' ')

/-- `Heartbeat.__print_next`: erase, then print the next glyph. -/
def Heartbeat.print_next (h : Heartbeat) : Heartbeat × List Out :=
  let e := h.erase
  let g := e.1.get_next_char
  (g.1, e.2 ++ [Out.glyph g.2])

/-- `Heartbeat.print_output` delegates to `__print_next`. -/
def Heartbeat.print_output (h : Heartbeat) : Heartbeat × List Out :=
  h.print_next

/-- `Heartbeat.dont_flush`: clear the pending-erasure flag. -/
def Heartbeat.dont_flush (h : Heartbeat) : Heartbeat :=
  { h with flush_output := false }

/-- `Heartbeat.clean_up`: call `erase` three times (the Python
`for i in range(3)` loop, unrolled). -/
def Heartbeat.clean_up (h : Heartbeat) : Heartbeat × List Out :=
  let e1 := h.erase
  let e2 := e1.1.erase
  let e3 := e2.1.erase
  (e3.1, e1.2 ++ e2.2 ++ e3.2)

/-- Calling `print_output` `n` times in a row, collecting all output. -/
def Heartbeat.print_n (h : Heartbeat) : Nat → Heartbeat × List Out
  | 0 => (h, [])
  | n + 1 =>
    let p := h.print_n n
    let q := p.1.print_output
    (q.1, p.2 ++ q.2)

/-- Expected output of `n` `print_output` calls from a fresh heartbeat:
call `k` emits a backspace unless it is the first, then glyph `k % 4`. -/
def hb_expected : Nat → List Out
  | 0 => []
  | n + 1 =>
    hb_expected n ++ ((if n = 0 then [] else [Out.backspace]) ++
      [Out.glyph (HEARTBEAT_CHARS.getD (n % 4) ' ')])

theorem hb_print_n_init (n : Nat) :
    Heartbeat.init.print_n n = (⟨n % 4, n != 0⟩, hb_expected n) := by
  induction n with
  | zero => rfl
  | succ n ih =>
    rw [Heartbeat.print_n, ih]
    by_cases hn : n = 0
    · subst hn
      rfl
    · have hb : (n != 0) = true := by simpa using hn
      simp only [Heartbeat.print_output, Heartbeat.print_next, Heartbeat.erase,
        Heartbeat.get_next_char, hb, if_true, hb_expected, if_neg hn]
      have h4 : (n % 4 + 1) % 4 = (n + 1) % 4 := by omega
      have hs : (n + 1 != 0) = true := by simp
      simp [HEARTBEAT_CHARS, h4, hs]

theorem glyphsOf_append (a b : List Out) :
    glyphsOf (a ++ b) = glyphsOf a ++ glyphsOf b := by
  simp [glyphsOf]

theorem hb_expected_glyph_count (n : Nat) :
    (hb_expected n).countP Out.isGlyph = n := by
  induction n with
  | zero => rfl
  | succ n ih =>
    rw [hb_expected, List.countP_append, ih]
    by_cases hn : n = 0 <;>
      simp [hn, List.countP_cons, List.countP_nil, Out.isGlyph]

theorem hb_expected_backspace_count (n : Nat) :
    (hb_expected n).countP Out.isBackspace = n - 1 := by
  induction n with
  | zero => rfl
  | succ n ih =>
    rw [hb_expected, List.countP_append, ih]
    by_cases hn : n = 0 <;>
      simp [hn, List.countP_cons, List.countP_nil, Out.isBackspace] <;> omega

theorem hb_expected_glyphs (n : Nat) :
    glyphsOf (hb_expected n) =
      (List.range n).map (fun k => HEARTBEAT_CHARS.getD (k % 4) ' ') := by
  induction n with
  | zero => rfl
  | succ n ih =>
    rw [hb_expected, List.range_succ, List.map_append, glyphsOf_append, ih]
    by_cases hn : n = 0 <;> simp [hn, glyphsOf]

/-- Claim C5: for every N ≥ 1, calling `Heartbeat.print_output` N times on
a freshly constructed `Heartbeat`, with no interleaved `dont_flush`,
emits exactly N glyphs and exactly N − 1 backspace erases, and the
glyphs follow the fixed cycle of `HEARTBEAT_CHARS` modulo 4. -/
theorem heartbeat_print_sequence (N : Nat) (hN : 1 ≤ N) :
    ((Heartbeat.init.print_n N).2.countP Out.isGlyph = N) ∧
    ((Heartbeat.init.print_n N).2.countP Out.isBackspace = N - 1) ∧
    (glyphsOf (Heartbeat.init.print_n N).2 =
      (List.range N).map (fun k => HEARTBEAT_CHARS.getD (k % 4) ' ')) := by
  rw [hb_print_n_init]
  exact ⟨hb_expected_glyph_count N, hb_expected_backspace_count N,
    hb_expected_glyphs N⟩

/-- Witness for C5 at N = 6. -/
theorem heartbeat_print_sequence_witness :
    1 ≤ 6 ∧
    (((Heartbeat.init.print_n 6).2.countP Out.isGlyph = 6) ∧
     ((Heartbeat.init.print_n 6).2.countP Out.isBackspace = 6 - 1) ∧
     (glyphsOf (Heartbeat.init.print_n 6).2 =
       (List.range 6).map (fun k => HEARTBEAT_CHARS.getD (k % 4) ' '))) :=
  ⟨by decide, heartbeat_print_sequence 6 (by decide)⟩

/-- Claim C4 (amended): `clean_up` emits exactly 3 backspaces when the
pending-erasure flag is set and exactly 2 when it is unset (the first
`erase` call then only sets the flag), and prints no glyph in either
case. -/
theorem heartbeat_clean_up_counts (h : Heartbeat) :
    ((h.clean_up).2.countP Out.isBackspace = if h.flush_output then 3 else 2) ∧
    ((h.clean_up).2.countP Out.isGlyph = 0) := by
  obtain ⟨c, f⟩ := h
  cases f <;>
    simp [Heartbeat.clean_up, Heartbeat.erase, List.countP, List.countP.go,
      Out.isBackspace, Out.isGlyph]

/-- Counterexample to C4 as stated: on a freshly constructed `Heartbeat`
(pending-erasure flag unset), `clean_up` does not emit 3 backspaces; it
emits only 2. -/
theorem heartbeat_clean_up_fresh_not_three :
    ¬ ((Heartbeat.init.clean_up).2.countP Out.isBackspace = 3) := by
  decide

/-- One CSV data row as written by `CSVLogger.log_sensor_data`:
`[timestamp, id_, temperature, humidity]`, empty string for the column
that does not apply. -/
structure CSVRow where
  timestamp : Int
  id_ : Int
  temperature : String
  humidity : String
deriving DecidableEq, Repr

/-- `CSVLogger.log_sensor_data`: the rows written for one reading.
Temperature readings populate the temperature column, humidity readings
the humidity column; any other datatype returns without writing (and
without error: the model is a total function). -/
def CSVLogger.log_sensor_data (protocol model : String) (id_ : Int)
    (datatype : Nat) (value : String) (timestamp cid : Int) : List CSVRow :=
  let temperature := ""
  let humidity := ""
  if datatype = TELLSTICK_TEMPERATURE then
    [⟨timestamp, id_, value, humidity⟩]
  else if datatype = TELLSTICK_HUMIDITY then
    [⟨timestamp, id_, temperature, value⟩]
  else
    []

/-- Claim C1: a Temperature (1) reading writes exactly one row with the
temperature column populated and the humidity column empty; a Humidity
(2) reading writes exactly one row with the humidity column populated
and the temperature column empty; any other datatype writes no row (and
raises no error — the writing function is total). -/
theorem csv_log_sensor_data_rows (protocol model : String) (id_ : Int)
    (datatype : Nat) (value : String) (timestamp cid : Int) :
    (datatype = TELLSTICK_TEMPERATURE →
      CSVLogger.log_sensor_data protocol model id_ datatype value timestamp cid
        = [⟨timestamp, id_, value, ""⟩]) ∧
    (datatype = TELLSTICK_HUMIDITY →
      CSVLogger.log_sensor_data protocol model id_ datatype value timestamp cid
        = [⟨timestamp, id_, "", value⟩]) ∧
    (datatype ≠ TELLSTICK_TEMPERATURE → datatype ≠ TELLSTICK_HUMIDITY →
      CSVLogger.log_sensor_data protocol model id_ datatype value timestamp cid
        = []) := by
  refine ⟨fun h1 => ?_, fun h2 => ?_, fun h1 h2 => ?_⟩
  · simp [CSVLogger.log_sensor_data, h1]
  · simp [CSVLogger.log_sensor_data, h2, TELLSTICK_TEMPERATURE,
      TELLSTICK_HUMIDITY]
  · simp [CSVLogger.log_sensor_data, h1, h2]

/-- Witness for C1 at a concrete temperature reading. -/
theorem csv_log_sensor_data_rows_witness :
    CSVLogger.log_sensor_data "oregon" "temp1" 5 1 "21.5" 1700000000 0
      = [⟨1700000000, 5, "21.5", ""⟩] :=
  (csv_log_sensor_data_rows "oregon" "temp1" 5 1 "21.5" 1700000000 0).1 rfl

/-- Environment seen by `CSVLogger.__open_log_file`: whether the logfile
already exists (`os.path.exists`) and the result of the `open` call
(an `IOError` message on failure). -/
structure FileEnv where
  file_exists : Bool
  open_result : Except String Unit
deriving Repr

/-- Outcome of `CSVLogger.__open_log_file`: either the file is open (with
the header written when the file is new or truncate mode is on), or a
message is printed and the process exits with the given status. -/
inductive OpenOutcome
  | opened (wrote_header : Bool)
  | fatal (message : String) (status : Nat)
deriving DecidableEq, Repr

/-- `CSVLogger.__open_log_file`: compute `new_file` and the mode, try the
open; on success write the header iff the file is new or mode is `w`;
on `IOError` print `Could not open logfile <path>: <error>` and
`exit(1)`. -/
def CSVLogger.open_log_file (logfile : String) (force_create : Bool)
    (env : FileEnv) : OpenOutcome :=
  let new_file := !env.file_exists
  let mode := if force_create then "w" else "a"
  match env.open_result with
  | .ok _ => .opened (new_file || mode == "w")
  | .error err => .fatal ("Could not open logfile " ++ logfile ++ ": " ++ err) 1

/-- Claim C8: when the `open` call fails, `CSVLogger` reports a message
naming the logfile path and the underlying error and exits with status 1
(non-zero); the outcome is never an opened file, so there is no retry or
recovery. -/
theorem csv_open_failure_fatal (logfile : String) (force_create : Bool)
    (env : FileEnv) (err : String) (h : env.open_result = .error err) :
    CSVLogger.open_log_file logfile force_create env
      = .fatal ("Could not open logfile " ++ logfile ++ ": " ++ err) 1 ∧
    (∀ b, CSVLogger.open_log_file logfile force_create env ≠ .opened b) ∧
    (1 : Nat) ≠ 0 := by
  refine ⟨?_, ?_, by decide⟩ <;> simp [CSVLogger.open_log_file, h]

/-- Witness for C8 at a concrete failing environment. -/
theorem csv_open_failure_fatal_witness :
    CSVLogger.open_log_file "/var/log/telltemp.csv" false
        ⟨true, .error "Permission denied"⟩
      = .fatal ("Could not open logfile /var/log/telltemp.csv: "
          ++ "Permission denied") 1 ∧
    (∀ b, CSVLogger.open_log_file "/var/log/telltemp.csv" false
        ⟨true, .error "Permission denied"⟩ ≠ .opened b) ∧
    (1 : Nat) ≠ 0 :=
  csv_open_failure_fatal "/var/log/telltemp.csv" false
    ⟨true, .error "Permission denied"⟩ "Permission denied" rfl

/-- Python truthiness test `not self.sensors or id_ in self.sensors`:
`sensors` is `None` (no allowlist) or a list; `None` and the empty list
are falsy, so both accept every ID; a non-empty list accepts exactly its
members. -/
def sensorsAccept (sensors : Option (List Int)) (id_ : Int) : Bool :=
  match sensors with
  | none => true
  | some l => l.isEmpty || l.contains id_

/-- `SensorEventHandler.print_sensor_data`: in silent mode return at once;
otherwise erase the heartbeat glyph if a heartbeat is active, print the
reading line, then mark the heartbeat with `dont_flush`. Returns the
updated heartbeat and the console output. -/
def print_sensor_data (silent : Bool) (heartbeat : Option Heartbeat)
    (data : SensorData) : Option Heartbeat × List Out :=
  if silent then (heartbeat, [])
  else
    match heartbeat with
    | none => (none, [Out.sensorLine data])
    | some hb =>
      let e := hb.erase
      (some e.1.dont_flush, e.2 ++ [Out.sensorLine data])

/-- `SensorEventHandler.handle_sensor_event`: accepted readings are
printed (via `print_sensor_data`) and forwarded to the logger; rejected
readings print an ignoring notice in verbose mode and nothing otherwise.
Returns the updated heartbeat, the console output, and the list of
readings forwarded to `logger.log_sensor_data`. -/
def handle_sensor_event (sensors : Option (List Int)) (silent verbose : Bool)
    (heartbeat : Option Heartbeat) (protocol model : String) (id_ : Int)
    (datatype : Nat) (value : String) (timestamp cid : Int) :
    Option Heartbeat × List Out × List SensorData :=
  if sensorsAccept sensors id_ then
    let data : SensorData := ⟨protocol, model, id_, datatype, value, timestamp, cid⟩
    let p := print_sensor_data silent heartbeat data
    (p.1, p.2, [data])
  else if verbose then
    (heartbeat, [Out.ignoring id_], [])
  else
    (heartbeat, [], [])

/-- Claim C2: with a non-empty allowlist and a reading whose ID is outside
it, `handle_sensor_event` never forwards the reading to the logger and
never prints the reading line; with verbose off it emits no output at
all. -/
theorem allowlist_rejects_outsiders (l : List Int) (hl : l ≠ []) (id_ : Int)
    (hid : id_ ∉ l) (silent verbose : Bool) (heartbeat : Option Heartbeat)
    (protocol model : String) (datatype : Nat) (value : String)
    (timestamp cid : Int) :
    ((handle_sensor_event (some l) silent verbose heartbeat protocol model id_
        datatype value timestamp cid).2.2 = []) ∧
    (∀ d, Out.sensorLine d ∉ (handle_sensor_event (some l) silent verbose
        heartbeat protocol model id_ datatype value timestamp cid).2.1) ∧
    (verbose = false → (handle_sensor_event (some l) silent verbose heartbeat
        protocol model id_ datatype value timestamp cid).2.1 = []) := by
  have hacc : sensorsAccept (some l) id_ = false := by
    simp [sensorsAccept, hl, hid]
  cases verbose <;>
    simp [handle_sensor_event, hacc]

/-- Witness for C2: allowlist `[1, 2]`, incoming ID 3, verbose off. -/
theorem allowlist_rejects_outsiders_witness :
    (([1, 2] : List Int) ≠ []) ∧ ((3 : Int) ∉ ([1, 2] : List Int)) ∧
    (((handle_sensor_event (some [1, 2]) false false none "oregon" "temp1" 3
        TELLSTICK_TEMPERATURE "21.5" 1700000000 0).2.2 = []) ∧
     (∀ d, Out.sensorLine d ∉ (handle_sensor_event (some [1, 2]) false false
        none "oregon" "temp1" 3 TELLSTICK_TEMPERATURE "21.5"
        1700000000 0).2.1) ∧
     (false = false → (handle_sensor_event (some [1, 2]) false false none
        "oregon" "temp1" 3 TELLSTICK_TEMPERATURE "21.5"
        1700000000 0).2.1 = [])) :=
  ⟨by decide, by decide,
    allowlist_rejects_outsiders [1, 2] (by decide) 3 (by decide) false false
      none "oregon" "temp1" TELLSTICK_TEMPERATURE "21.5" 1700000000 0⟩

/-- Claim C9: an empty allowlist behaves exactly like no allowlist:
`handle_sensor_event` accepts every reading, forwards it to the logger,
and (when silent mode is off) prints the reading line. -/
theorem empty_allowlist_accepts_all (silent verbose : Bool)
    (heartbeat : Option Heartbeat) (protocol model : String) (id_ : Int)
    (datatype : Nat) (value : String) (timestamp cid : Int) :
    (handle_sensor_event (some []) silent verbose heartbeat protocol model id_
        datatype value timestamp cid
      = handle_sensor_event none silent verbose heartbeat protocol model id_
        datatype value timestamp cid) ∧
    ((handle_sensor_event (some []) silent verbose heartbeat protocol model id_
        datatype value timestamp cid).2.2
      = [⟨protocol, model, id_, datatype, value, timestamp, cid⟩]) ∧
    (silent = false →
      Out.sensorLine ⟨protocol, model, id_, datatype, value, timestamp, cid⟩
        ∈ (handle_sensor_event (some []) silent verbose heartbeat protocol
            model id_ datatype value timestamp cid).2.1) := by
  refine ⟨rfl, by simp [handle_sensor_event, sensorsAccept,
    print_sensor_data], fun hs => ?_⟩
  subst hs
  cases heartbeat <;>
    simp [handle_sensor_event, sensorsAccept, print_sensor_data]

/-- Witness for C9 at a concrete reading with silent off. -/
theorem empty_allowlist_accepts_all_witness :
    ((handle_sensor_event (some []) false true none "oregon" "temp1" 3
        TELLSTICK_HUMIDITY "45.0" 1700000000 0
      = handle_sensor_event none false true none "oregon" "temp1" 3
        TELLSTICK_HUMIDITY "45.0" 1700000000 0) ∧
     ((handle_sensor_event (some []) false true none "oregon" "temp1" 3
        TELLSTICK_HUMIDITY "45.0" 1700000000 0).2.2
       = [⟨"oregon", "temp1", 3, TELLSTICK_HUMIDITY, "45.0", 1700000000, 0⟩]) ∧
     (false = false →
       Out.sensorLine ⟨"oregon", "temp1", 3, TELLSTICK_HUMIDITY, "45.0",
           1700000000, 0⟩
         ∈ (handle_sensor_event (some []) false true none "oregon" "temp1" 3
             TELLSTICK_HUMIDITY "45.0" 1700000000 0).2.1)) :=
  empty_allowlist_accepts_all false true none "oregon" "temp1" 3
    TELLSTICK_HUMIDITY "45.0" 1700000000 0

/-- Claim C10: in silent mode `print_sensor_data` emits nothing and leaves
the heartbeat state untouched, while `handle_sensor_event` still forwards
every accepted reading to the logger (and, being silent, emits nothing
and leaves the heartbeat untouched as well). -/
theorem silent_mode_skips_print_still_logs (heartbeat : Option Heartbeat)
    (data : SensorData) (sensors : Option (List Int)) (verbose : Bool)
    (protocol model : String) (id_ : Int) (datatype : Nat) (value : String)
    (timestamp cid : Int) (hacc : sensorsAccept sensors id_ = true) :
    (print_sensor_data true heartbeat data = (heartbeat, [])) ∧
    (handle_sensor_event sensors true verbose heartbeat protocol model id_
        datatype value timestamp cid
      = (heartbeat, [],
         [⟨protocol, model, id_, datatype, value, timestamp, cid⟩])) := by
  constructor
  · rfl
  · simp [handle_sensor_event, hacc, print_sensor_data]

/-- Witness for C10: no allowlist, heartbeat mid-animation, silent on. -/
theorem silent_mode_skips_print_still_logs_witness :
    (sensorsAccept none 5 = true) ∧
    ((print_sensor_data true (some ⟨2, true⟩)
        ⟨"oregon", "temp1", 5, 1, "21.5", 1700000000, 0⟩
      = (some ⟨2, true⟩, [])) ∧
     (handle_sensor_event none true false (some ⟨2, true⟩) "oregon" "temp1" 5
        1 "21.5" 1700000000 0
      = (some ⟨2, true⟩, [],
         [⟨"oregon", "temp1", 5, 1, "21.5", 1700000000, 0⟩]))) :=
  ⟨by decide,
    silent_mode_skips_print_still_logs (some ⟨2, true⟩)
      ⟨"oregon", "temp1", 5, 1, "21.5", 1700000000, 0⟩ none false "oregon"
      "temp1" 5 1 "21.5" 1700000000 0 (by decide)⟩

/-- A cached value from the SDK: `SensorValue.value` and
`SensorValue.timestamp`. -/
structure SensorValue where
  value : String
  timestamp : Int
deriving DecidableEq, Repr

/-- A sensor as returned by the SDK listing: `has_value(dt)` is the
`isSome` of the corresponding slot, `value(dt)` reads the slot (and the
SDK raises when the slot is empty). -/
structure Sensor where
  id : Int
  protocol : String
  model : String
  temp_value : Option SensorValue
  humidity_value : Option SensorValue
deriving DecidableEq, Repr

/-- The Python variable `timestamp` in the `list_sensors` loop: either the
initial empty string or a numeric timestamp from a value slot. -/
inductive TsField
  | empty
  | stamp (n : Int)
deriving DecidableEq, Repr

/-- Python falsiness of the `timestamp` variable: the empty string and the
number 0 are falsy. -/
def TsField.falsy : TsField → Bool
  | .empty => true
  | .stamp n => n == 0

/-- One printed row of the `list_sensors` table. -/
structure ListRow where
  id : Int
  protocol : String
  model : String
  temperature : String
  humidity : String
  timestamp : TsField
deriving DecidableEq, Repr

/-- One iteration of the `list_sensors` loop for a single sensor:
`.ok none` when the sensor is skipped (`continue`), `.ok (some row)` when
a row is printed, `.error ()` when the loop body raises because
`sensor.value(TELLSTICK_TEMPERATURE)` is read on a sensor with no cached
temperature value — the humidity branch of the source reads the
temperature slot, not the humidity slot. -/
def list_sensors_row (sensor : Sensor) : Except Unit (Option ListRow) :=
  let first : String × TsField :=
    match sensor.temp_value with
    | some sv => (sv.value, .stamp sv.timestamp)
    | none => ("", .empty)
  let temperature := first.1
  if sensor.humidity_value.isSome then
    match sensor.temp_value with
    | none => .error ()
    | some sv =>
      let humidity := sv.value
      let timestamp := if (first.2).falsy then TsField.stamp sv.timestamp
        else first.2
      if temperature = "" ∧ humidity = "" then .ok none
      else .ok (some ⟨sensor.id, sensor.protocol, sensor.model, temperature,
        humidity, timestamp⟩)
  else
    if temperature = "" then .ok none
    else .ok (some ⟨sensor.id, sensor.protocol, sensor.model, temperature, "",
      first.2⟩)

/-- A sensor with distinct temperature and humidity values, exposing the
copy-paste defect. -/
def c6_sensor : Sensor :=
  ⟨7, "oregon", "temphum1", some ⟨"21.5", 100⟩, some ⟨"45.0", 200⟩⟩

/-- Claim C6 evaluated at the failing input: for a sensor whose temperature
value is "21.5" and whose humidity value is "45.0", the printed row
carries "21.5" — the temperature slot's value — in the humidity column,
not the sensor's humidity value "45.0". -/
theorem list_sensors_humidity_from_temp_slot :
    list_sensors_row c6_sensor
      = .ok (some ⟨7, "oregon", "temphum1", "21.5", "21.5", .stamp 100⟩) ∧
    ("21.5" : String) ≠ "45.0" := by
  exact ⟨rfl, by decide⟩

/-- A sensor whose humidity value is older than its temperature value. -/
def c7_sensor : Sensor :=
  ⟨8, "oregon", "temphum1", some ⟨"21.5", 200⟩, some ⟨"45.0", 100⟩⟩

/-- Counterexample to C7 as stated: for a sensor with temperature timestamp
200 and humidity timestamp 100, the printed row carries timestamp 200,
not the earlier of the two (100). -/
theorem list_sensors_timestamp_not_earlier :
    list_sensors_row c7_sensor
      = .ok (some ⟨8, "oregon", "temphum1", "21.5", "21.5", .stamp 200⟩) ∧
    TsField.stamp 200 ≠ TsField.stamp (min 200 100) := by
  exact ⟨rfl, by decide⟩

/-- Claim C7 (amended): for every sensor with both a temperature and a
humidity value available (with a non-empty temperature value string, so
the row is not skipped), the printed last-updated timestamp is the
temperature value's timestamp — not the earlier of the two — and, by the
copy-paste defect, both value columns carry the temperature slot's
value. -/
theorem list_sensors_timestamp_is_temperature (sensor : Sensor)
    (tv hv : SensorValue) (ht : sensor.temp_value = some tv)
    (hh : sensor.humidity_value = some hv) (hval : tv.value ≠ "") :
    list_sensors_row sensor
      = .ok (some ⟨sensor.id, sensor.protocol, sensor.model, tv.value,
          tv.value, .stamp tv.timestamp⟩) := by
  simp only [list_sensors_row, ht, hh, Option.isSome_some, if_true]
  have : ¬ (tv.value = "" ∧ tv.value = "") := fun h => hval h.1
  simp only [this, if_false]
  by_cases h0 : tv.timestamp = 0 <;>
    simp [TsField.falsy, h0]

/-- Witness for the amended C7 at a concrete sensor. -/
theorem list_sensors_timestamp_is_temperature_witness :
    (c7_sensor.temp_value = some ⟨"21.5", 200⟩) ∧
    (c7_sensor.humidity_value = some ⟨"45.0", 100⟩) ∧
    (("21.5" : String) ≠ "") ∧
    (list_sensors_row c7_sensor
      = .ok (some ⟨c7_sensor.id, c7_sensor.protocol, c7_sensor.model, "21.5",
          "21.5", .stamp 200⟩)) :=
  ⟨rfl, rfl, by decide,
    list_sensors_timestamp_is_temperature c7_sensor ⟨"21.5", 200⟩
      ⟨"45.0", 100⟩ rfl rfl (by decide)⟩

/-- The command-line value of `--logtype` after `argparse`: the flag is
declared with `nargs=1`, so when absent the value is the default, the
plain string `CSV`; when present it is the one-element list holding the
choice. -/
inductive LogtypeArg
  | dflt
  | given (s : String)
deriving DecidableEq, Repr

/-- Python `==` between `args.logtype` and a string literal: the default is
a string and compares by content; a given value is a list, and a list
never equals a string. -/
def LogtypeArg.eqString : LogtypeArg → String → Bool
  | .dflt, s => "CSV" == s
  | .given _, _ => false

/-- What `__main__` does after parsing, as far as logger selection goes:
`csv`/`null` mean the corresponding logger class is entered; `sqliteExit`
means the fixed not-implemented message is printed and `exit(1)` runs;
`unboundLocal` means the `with logger(...)` line raises
`UnboundLocalError` because no branch assigned `logger`. -/
inductive LoggerChoice
  | csv
  | null
  | sqliteExit
  | unboundLocal
deriving DecidableEq, Repr

/-- The `__main__` logger dispatch: `logtype = args.logtype if args.logtype
else CSV` keeps the parsed value (both forms are truthy), then the
`logfile` truthiness test and the two string comparisons select the
branch. -/
def select_logger (logfile : Option String) (logtype_arg : LogtypeArg) :
    LoggerChoice :=
  let logtype := logtype_arg
  if logfile.isSome then
    if logtype.eqString "CSV" then .csv
    else if logtype.eqString "SQLite" then .sqliteExit
    else .unboundLocal
  else .null

/-- Claim C3 evaluated on the code: supplying `--logtype SQLite` never
reaches the not-implemented branch. With a logfile the comparison of the
one-element list against the string fails for both choices and the
program crashes with `UnboundLocalError`; without a logfile the null
logger is selected and the run proceeds normally. (Supplying
`--logtype CSV` with a logfile crashes the same way.) -/
theorem sqlite_selection_never_prints_message :
    (select_logger (some "log.csv") (.given "SQLite") = .unboundLocal) ∧
    (select_logger (some "log.csv") (.given "SQLite") ≠ .sqliteExit) ∧
    (select_logger none (.given "SQLite") = .null) ∧
    (select_logger (some "log.csv") (.given "CSV") = .unboundLocal) := by
  refine ⟨rfl, by decide, rfl, rfl⟩
